import Mathlib

/-!
Shallow embedding of the research aggregation and streaming outline
pipeline of this repository:

* `services/agentic_research_service.py` — `AgenticResearchService.run`
  and the pure post-gather processing of the three adapter results;
* `api/v1/ppt/endpoints/outlines.py` — the body of
  `stream_outlines.inner`, the async generator that drives the outline
  stream.

External collaborators that live outside these two files
(`DocumentsLoader`, `generate_ppt_outline`, `dirtyjson`,
`PresentationOutlineModel`, `get_presentation_title_from_outlines`, the
sql session) are modelled as oracles supplied by the execution scenario.
-/

/-- Research item dict built by the adapters in
agentic_research_service.py: every dict pushed by search_tavily
(lines 125-129), search_wikipedia (lines 174-178) and search_archive
(lines 220-224) carries exactly the keys title, content and url. -/
structure ResearchItem where
  title : String
  content : String
  url : String
deriving DecidableEq

/-- Entry of the structured source list built at lines 82-88 of
agentic_research_service.py. -/
structure SourceRef where
  title : String
  url : String
deriving DecidableEq

/-- Return value of AgenticResearchService.run: a dict with the two keys
summary and sources (lines 58-62 and 90-93). -/
structure ResearchBundle where
  summary : String
  sources : List SourceRef
deriving DecidableEq

/-- Outcome of one adapter task as observed through asyncio.gather with
return_exceptions set (lines 36-41): either the raised exception object
or the returned list of items. run keeps a result iff it is a list
(line 46). -/
inductive AdapterResult where
  | failure (message : String)
  | success (items : List ResearchItem)
deriving DecidableEq

/-- Items contributed by one adapter result: a failure contributes
nothing. -/
def AdapterResult.items : AdapterResult → List ResearchItem
  | .failure _ => []
  | .success l => l

/-- Lines 43-47 of agentic_research_service.py: collected_results is
extended with every gathered result that is a list, in gather order. -/
def collectedResults (results : List AdapterResult) : List ResearchItem :=
  (results.map AdapterResult.items).flatten

/-- Lines 50-56 of agentic_research_service.py: iterate the collected
items and insert into a dict keyed by url whenever the url is non-empty
and not yet a key; the dict preserves insertion order, so the values are
the first occurrences of each non-empty url in iteration order. The seen
argument lists the urls already present. Items with an empty url are
never inserted. -/
def collectUnique : List ResearchItem → List String → List ResearchItem
  | [], _ => []
  | i :: rest, seen =>
    if i.url ≠ "" ∧ i.url ∉ seen then
      i :: collectUnique rest (i.url :: seen)
    else
      collectUnique rest seen

/-- Specification-level description of the same dedup: keep the first
item bearing each non-empty url, drop every later item with that url and
every item with an empty url. -/
def keepFirstByUrl : List ResearchItem → List ResearchItem
  | [] => []
  | i :: rest =>
    if i.url = "" then
      keepFirstByUrl rest
    else
      i :: keepFirstByUrl (rest.filter (fun j => j.url ≠ i.url))
termination_by l => l.length
decreasing_by
  all_goals simp only [List.length_cons]
  · omega
  · exact Nat.lt_succ_of_le (List.length_filter_le _ _)

/-- Lines 72-76 of agentic_research_service.py: the three-line block
formatted for one research item. -/
def formatBlock (i : ResearchItem) : String :=
  "Title: " ++ i.title ++ "\n" ++ "Content: " ++ i.content ++ "\n"
    ++ "Source: " ++ i.url ++ "\n"

/-- Line 79 of agentic_research_service.py: blocks joined with blank-line
separators. -/
def buildSummary (items : List ResearchItem) : String :=
  String.intercalate "\n\n" (items.map formatBlock)

/-- Lines 82-88 of agentic_research_service.py: the structured source
list entry for one surviving item. -/
def mkSourceRef (i : ResearchItem) : SourceRef :=
  { title := i.title, url := i.url }

/-- Lines 43-93 of agentic_research_service.py: the pure content of
AgenticResearchService.run once the three adapter tasks have settled, as
a function of the gathered per-adapter results. -/
def runService (results : List AdapterResult) : ResearchBundle :=
  let finalResults := collectUnique (collectedResults results) []
  if finalResults = [] then
    { summary := "", sources := [] }
  else
    { summary := buildSummary finalResults,
      sources := finalResults.map mkSourceRef }

/-- Lines 36-41 of agentic_research_service.py: run gathers exactly the
three adapters in registration order tavily, wikipedia, archive. -/
def runAggregator (tav wik arc : AdapterResult) : ResearchBundle :=
  runService [tav, wik, arc]

/-- Model of asyncio.gather over the three adapter tasks: the tasks
settle in some completion order, but gather stores each task's result at
the task's argument position, so the list handed to the rest of run is
in registration order whatever the completion order was. -/
def gatherModel (r : Fin 3 → AdapterResult) (completionOrder : List (Fin 3)) :
    List AdapterResult :=
  let completed := completionOrder.map (fun i => (i, r i))
  (List.finRange 3).map (fun i => (completed.lookup i).getD (AdapterResult.success []))

/-- Integer form of math.ceil(a / 10) as computed at lines 111-114 of
outlines.py: for the divisor 10 the ceiling of the exact quotient equals
floor division of a + 9 by 10. -/
def pyCeilDiv10 (a : Int) : Int := (a + 9) / 10

/-- Lines 108-114 of outlines.py: number of content slides to generate.
With the table-of-contents flag set, needed_toc_count pages are estimated
and the requested total is reduced by the ceiling of the remaining count
over 10. -/
def slidesToGenerate (nSlides : Int) (includeToc : Bool) : Int :=
  if includeToc then
    nSlides - pyCeilDiv10 (nSlides - pyCeilDiv10 (nSlides - 1))
  else
    nSlides

/-- Slide spec inside the parsed outline. Modelled from the spec:
models/presentation_outline_model.py is outside src/, and the spec
describes the OutlineDocument as an ordered sequence of slide specs. -/
structure SlideOutline where
  content : String
deriving DecidableEq

/-- Parsed outline document: an ordered sequence of slide specs. -/
structure OutlineDoc where
  slides : List SlideOutline
deriving DecidableEq

/-- Presentation record as read from the database at stream start and
mutated (outlines, title) at lines 170-173 of outlines.py. The fields
other than outlines and title are configuration read during the
stream. -/
structure Presentation where
  content : String
  nSlides : Int
  language : String
  includeToc : Bool
  includeTitleSlide : Bool
  webSearch : Bool
  filePaths : List String
  tone : String
  verbosity : String
  instructions : String
  outlines : Option OutlineDoc
  title : Option String
deriving DecidableEq

/-- Stream events. Modelled from the spec: models/sse_response.py is
outside src/; the spec describes the tagged variants Status, Chunk,
Error and Complete serialized in production order. -/
inductive SSEEvent where
  | status (message : String)
  | chunk (text : String)
  | error (detail : String)
  | complete (key : String) (value : Presentation)
deriving DecidableEq

/-- Terminal events are Error and Complete. -/
def SSEEvent.isTerminal : SSEEvent → Bool
  | .error _ => true
  | .complete _ _ => true
  | _ => false

/-- How the generator body ended: a normal return closes the stream; an
uncaught exception escapes the async generator, so the connection is torn
down with no further event. -/
inductive StreamOutcome where
  | closed
  | raised (message : String)
deriving DecidableEq

/-- One element of the generate_ppt_outline stream: a text fragment, or
the embedded HTTPException checked at line 134 of outlines.py. -/
inductive GenChunk where
  | text (s : String)
  | httpError (detail : String)
deriving DecidableEq

/-- Value held by the research_context variable of stream_outlines.inner:
initialized to the empty string at line 65, reassigned at line 74 to the
dict returned by AgenticResearchService.run. -/
inductive CtxVal where
  | str (s : String)
  | dict (b : ResearchBundle)
deriving DecidableEq

/-- Python truthiness of the research_context value: a string is truthy
iff it is non-empty; the dict returned by run always holds the two keys
summary and sources, hence is non-empty and truthy. -/
def CtxVal.truthy : CtxVal → Bool
  | .str s => s != ""
  | .dict _ => true

/-- One execution scenario of stream_outlines.inner: the presentation row
read at stream start together with oracles for every external call.
Modelled from the spec where the callee lives outside src/:
DocumentsLoader.load_documents, generate_ppt_outline (a lazy chunk stream
that may embed an HTTPException), dirtyjson.loads plus dict conversion,
PresentationOutlineModel validation, get_presentation_title_from_outlines
and the sql commit. An Except error value means the call raised. -/
structure Scenario where
  pres : Presentation
  loadResult : Except String (List String)
  researchResult : Except String ResearchBundle
  generate : String → List GenChunk
  parseJson : String → Except String String
  validate : String → Except String OutlineDoc
  titleOf : OutlineDoc → String
  commitResult : Except String Unit

/-- Lines 48-60 of outlines.py: attachment loading. A raise from
DocumentsLoader.load_documents is not caught, so it escapes the
generator; on success additional_context is the documents joined by
blank lines when any were produced, else the empty string. -/
def loadPhase (s : Scenario) : Except (List SSEEvent × String) (List SSEEvent × String) :=
  if s.pres.filePaths ≠ [] then
    match s.loadResult with
    | .error m => .error ([SSEEvent.status "Loading uploaded documents..."], m)
    | .ok docs =>
      .ok ([SSEEvent.status "Loading uploaded documents..."],
        if docs ≠ [] then String.intercalate "\n\n" docs else "")
  else
    .ok ([], "")

/-- Lines 65-91 of outlines.py: research stage. Every raise from run is
caught and answered with the failed-continuing status; on success
research_context holds the returned dict, which is always truthy, so the
found branch is taken even for the empty bundle and the none-found
branch is unreachable. -/
def researchPhase (s : Scenario) : List SSEEvent × CtxVal :=
  if s.pres.webSearch then
    match s.researchResult with
    | .ok b =>
      if (CtxVal.dict b).truthy then
        ([SSEEvent.status "Running agentic research (web + wikipedia + archive)...",
          SSEEvent.status "Research completed. Enhancing outline generation..."],
          CtxVal.dict b)
      else
        ([SSEEvent.status "Running agentic research (web + wikipedia + archive)...",
          SSEEvent.status "No external research found. Continuing..."],
          CtxVal.dict b)
    | .error _ =>
      ([SSEEvent.status "Running agentic research (web + wikipedia + archive)...",
        SSEEvent.status "Research failed. Continuing without external context."],
        CtxVal.str "")
  else
    ([], CtxVal.str "")

/-- Message of the Python TypeError raised at lines 99-103 of outlines.py
when the truthy research value is the bundle dict and is concatenated to
a string. -/
def typeErrorMsg : String :=
  "TypeError: can only concatenate str (not dict) to str"

/-- Lines 96-103 of outlines.py: merge step. When research_context is
falsy the attachment text passes through unchanged; when it is truthy
the code appends the labeled section after the attachment text — and
since the truthy value reachable in the program is the bundle dict, that
concatenation raises TypeError. -/
def mergePhase (additional : String) (ctx : CtxVal) : Except String String :=
  if ctx.truthy then
    match ctx with
    | .str r =>
      .ok ((if additional ≠ "" then additional ++ "\n\n" else "")
        ++ "External Research Context:\n" ++ r)
    | .dict _ => .error typeErrorMsg
  else
    .ok additional

/-- Lines 121-143 of outlines.py: streaming generation loop. Each text
chunk is re-yielded as a chunk event and appended to the accumulator; an
HTTPException chunk yields an error event and returns at once. The
second component is the accumulated text when the loop ran to the end,
none when it returned on an error chunk. -/
def genLoop : List GenChunk → String → List SSEEvent × Option String
  | [], acc => ([], some acc)
  | GenChunk.text t :: rest, acc =>
    let r := genLoop rest (acc ++ t)
    (SSEEvent.chunk t :: r.1, r.2)
  | GenChunk.httpError d :: _, _ => ([SSEEvent.error d], none)

/-- Lines 163-165 of outlines.py: slice of the slide list to the first
n_slides_to_generate entries; for a nonnegative count the Python slice
is List.take. -/
def truncateSlides (doc : OutlineDoc) (k : Int) : OutlineDoc :=
  { doc with slides := doc.slides.take k.toNat }

/-- Detail string of the parse-failure error event at lines 152-157 of
outlines.py. -/
def parseErrorDetail (e : String) : String :=
  "Failed to generate presentation outlines. Please try again. " ++ e

/-- Lines 163-173 of outlines.py: the in-memory mutation of the
presentation record — slides truncated to the computed count, outlines
and title fields assigned. -/
def mutatedRecord (s : Scenario) (doc : OutlineDoc) : Presentation :=
  let doc' := truncateSlides doc (slidesToGenerate s.pres.nSlides s.pres.includeToc)
  { s.pres with outlines := some doc', title := some (s.titleOf doc') }

/-- Lines 145-181 of outlines.py: parse, truncate, persist, complete.
A dirtyjson failure is caught and reported as an error event before
returning; a PresentationOutlineModel validation failure and a commit
failure are not caught and escape the generator — in the commit case
after the in-memory record was already mutated. -/
def afterGenerate (s : Scenario) (evs : List SSEEvent) :
    List SSEEvent × Option String → List SSEEvent × StreamOutcome × Presentation
  | (gevs, none) => (evs ++ gevs, StreamOutcome.closed, s.pres)
  | (gevs, some text) =>
    match s.parseJson text with
    | .error e =>
      (evs ++ gevs ++ [SSEEvent.error (parseErrorDetail e)],
        StreamOutcome.closed, s.pres)
    | .ok raw =>
      match s.validate raw with
      | .error m => (evs ++ gevs, StreamOutcome.raised m, s.pres)
      | .ok doc =>
        match s.commitResult with
        | .error m => (evs ++ gevs, StreamOutcome.raised m, mutatedRecord s doc)
        | .ok _ =>
          (evs ++ gevs ++ [SSEEvent.complete "presentation" (mutatedRecord s doc)],
            StreamOutcome.closed, mutatedRecord s doc)

/-- Lines 40-181 of outlines.py: the whole body of stream_outlines.inner
as a function of a scenario, yielding the emitted events, the way the
generator ended, and the in-memory presentation record afterwards. -/
def runStream (s : Scenario) : List SSEEvent × StreamOutcome × Presentation :=
  let ev0 : List SSEEvent := [SSEEvent.status "Generating presentation outlines..."]
  match loadPhase s with
  | .error lm => (ev0 ++ lm.1, StreamOutcome.raised lm.2, s.pres)
  | .ok la =>
    let rp := researchPhase s
    match mergePhase la.2 rp.2 with
    | .error m => (ev0 ++ la.1 ++ rp.1, StreamOutcome.raised m, s.pres)
    | .ok finalCtx =>
      afterGenerate s (ev0 ++ la.1 ++ rp.1) (genLoop (s.generate finalCtx) "")

/-- Replace a failed adapter result by a successful empty one: the
contribution a failure makes to run according to lines 45-47. -/
def AdapterResult.surviving : AdapterResult → AdapterResult
  | .failure _ => .success []
  | .success l => .success l

/-- Event list that closes properly: it is non-empty, its last event is
terminal, and no event before the last is terminal. -/
def properClosed (es : List SSEEvent) : Bool :=
  match es.getLast? with
  | some e => e.isTerminal && es.dropLast.all (fun x => !x.isTerminal)
  | none => false

/-- Presentation used by the concrete scenarios: research and
attachments disabled unless overridden. -/
def presBase : Presentation :=
  { content := "quantum computing", nSlides := 10, language := "English",
    includeToc := false, includeTitleSlide := true, webSearch := false,
    filePaths := [], tone := "neutral", verbosity := "standard",
    instructions := "", outlines := none, title := none }

/-- Scenario in which every external call succeeds. -/
def scenarioBase : Scenario :=
  { pres := presBase,
    loadResult := Except.ok [],
    researchResult := Except.ok { summary := "", sources := [] },
    generate := fun _ => [GenChunk.text "\x7bslides: []\x7d"],
    parseJson := fun t => Except.ok t,
    validate := fun _ => Except.ok { slides := [{ content := "Intro" }] },
    titleOf := fun _ => "Quantum Computing",
    commitResult := Except.ok () }

/-- Scenario with attached files whose extraction raises. -/
def scenarioLoadFail : Scenario :=
  { scenarioBase with
    pres := { presBase with filePaths := ["doc.pdf"] },
    loadResult := Except.error "extraction failed" }

/-- Scenario with research enabled and a successful research run that
returns a non-empty bundle. -/
def scenarioResearchOk : Scenario :=
  { scenarioBase with
    pres := { presBase with webSearch := true },
    researchResult := Except.ok
      { summary := "Title: t\nContent: c\nSource: u\n",
        sources := [{ title := "t", url := "u" }] } }

/-- Scenario with research enabled and a successful research run that
returns the empty bundle. -/
def scenarioResearchEmpty : Scenario :=
  { scenarioBase with
    pres := { presBase with webSearch := true },
    researchResult := Except.ok { summary := "", sources := [] } }

/-- Scenario whose generator stream embeds an HTTPException after one
text chunk. -/
def scenarioGenError : Scenario :=
  { scenarioBase with
    generate := fun _ => [GenChunk.text "half", GenChunk.httpError "LLM failure"] }

/-- Concrete adapter outcome triple: the first adapter succeeds with one
item, the other two fail. -/
def adapterTriple : Fin 3 → AdapterResult := fun i =>
  if i = 0 then
    AdapterResult.success [{ title := "t", content := "c", url := "u" }]
  else
    AdapterResult.failure "timeout"

/-- Membership in the deduplicated list only comes from the input. -/
lemma mem_keepFirstByUrl : ∀ (items : List ResearchItem) (x : ResearchItem),
    x ∈ keepFirstByUrl items → x ∈ items := by
  intro items
  induction items using keepFirstByUrl.induct with
  | case1 => intro x hx; simp [keepFirstByUrl] at hx
  | case2 i rest h ih =>
    intro x hx
    rw [keepFirstByUrl, if_pos h] at hx
    exact List.mem_cons_of_mem _ (ih x hx)
  | case3 i rest h ih =>
    intro x hx
    rw [keepFirstByUrl, if_neg h] at hx
    rcases List.mem_cons.mp hx with h1 | h1
    · exact h1 ▸ List.mem_cons_self _ _
    · exact List.mem_cons_of_mem _ (List.mem_of_mem_filter (ih x h1))

/-- Every item surviving the dedup has a non-empty url. -/
lemma keepFirstByUrl_url_ne_empty : ∀ (items : List ResearchItem) (x : ResearchItem),
    x ∈ keepFirstByUrl items → x.url ≠ "" := by
  intro items
  induction items using keepFirstByUrl.induct with
  | case1 => intro x hx; simp [keepFirstByUrl] at hx
  | case2 i rest h ih =>
    intro x hx
    rw [keepFirstByUrl, if_pos h] at hx
    exact ih x hx
  | case3 i rest h ih =>
    intro x hx
    rw [keepFirstByUrl, if_neg h] at hx
    rcases List.mem_cons.mp hx with h1 | h1
    · exact h1 ▸ h
    · exact ih x h1

/-- The urls of the deduplicated list are pairwise distinct. -/
lemma keepFirstByUrl_urls_nodup : ∀ items : List ResearchItem,
    ((keepFirstByUrl items).map (fun i => i.url)).Nodup := by
  intro items
  induction items using keepFirstByUrl.induct with
  | case1 => simp [keepFirstByUrl]
  | case2 i rest h ih => rw [keepFirstByUrl, if_pos h]; exact ih
  | case3 i rest h ih =>
    rw [keepFirstByUrl, if_neg h]
    rw [List.map_cons, List.nodup_cons]
    refine ⟨?_, ih⟩
    intro hmem
    rcases List.mem_map.mp hmem with ⟨x, hx, hxu⟩
    have := List.mem_filter.mp (mem_keepFirstByUrl _ _ hx)
    rw [hxu] at this
    simp at this

/-- The dict-based dedup of run computes exactly the first-occurrence
dedup, relative to a seen set that cannot hold the empty url. -/
lemma collectUnique_eq_keepFirstByUrl (items : List ResearchItem) :
    ∀ seen : List String, "" ∉ seen →
      collectUnique items seen =
        keepFirstByUrl (items.filter (fun i => decide (i.url ∉ seen))) := by
  induction items with
  | nil => intro seen _; simp [collectUnique, keepFirstByUrl]
  | cons i rest ih =>
    intro seen h
    by_cases hu : i.url = ""
    · have hmem : i.url ∉ seen := by rw [hu]; exact h
      rw [collectUnique, if_neg (by simp [hu])]
      rw [List.filter_cons, if_pos (by simpa using hmem)]
      rw [keepFirstByUrl, if_pos hu]
      exact ih seen h
    · by_cases hs : i.url ∈ seen
      · rw [collectUnique, if_neg (by simp [hs])]
        rw [List.filter_cons, if_neg (by simpa using hs)]
        exact ih seen h
      · rw [collectUnique, if_pos ⟨hu, hs⟩]
        rw [List.filter_cons, if_pos (by simpa using hs)]
        rw [keepFirstByUrl, if_neg hu]
        congr 1
        rw [ih (i.url :: seen) (by rw [List.mem_cons]; push_neg; exact ⟨Ne.symm hu, h⟩)]
        rw [List.filter_filter]
        congr 1
        apply List.filter_congr
        intro j _
        by_cases h1 : j.url = i.url <;> by_cases h2 : j.url ∈ seen <;>
          simp [h1, h2, List.mem_cons]

/-- Source list produced by run: the first-occurrence dedup of the
collected items, projected to title and url pairs. -/
lemma runService_sources (rs : List AdapterResult) :
    (runService rs).sources = (keepFirstByUrl (collectedResults rs)).map mkSourceRef := by
  have h := collectUnique_eq_keepFirstByUrl (collectedResults rs) [] (by simp)
  have hfilter : (collectedResults rs).filter (fun i => decide (i.url ∉ ([] : List String)))
      = collectedResults rs := by
    apply List.filter_eq_self.mpr
    intro a _
    simp
  rw [hfilter] at h
  unfold runService
  by_cases hk : collectUnique (collectedResults rs) [] = []
  · rw [h] at hk
    simp [h, hk]
  · simp only [h]
    rw [if_neg (by rw [← h]; exact hk)]

/-- One adapter result prepends its items to the collected list. -/
lemma collectedResults_cons (r : AdapterResult) (rest : List AdapterResult) :
    collectedResults (r :: rest) = r.items ++ collectedResults rest := rfl

/-- Replacing failures by empty successes leaves the items untouched. -/
lemma surviving_items (r : AdapterResult) :
    (AdapterResult.surviving r).items = r.items := by
  cases r <;> rfl

/-- Failures contribute nothing to the collected list. -/
lemma collectedResults_map_surviving (rs : List AdapterResult) :
    collectedResults (rs.map AdapterResult.surviving) = collectedResults rs := by
  induction rs with
  | nil => rfl
  | cons r rest ih =>
    rw [List.map_cons, collectedResults_cons, collectedResults_cons,
      surviving_items, ih]

/-- When every adapter contributes no item the collected list is empty. -/
lemma collectedResults_eq_nil (rs : List AdapterResult)
    (h : (rs.all fun r => r.items.isEmpty) = true) : collectedResults rs = [] := by
  induction rs with
  | nil => rfl
  | cons r rest ih =>
    rw [List.all_cons, Bool.and_eq_true] at h
    rw [collectedResults_cons, List.isEmpty_iff.mp h.1, ih h.2]
    rfl

/-- C1 (amended): for every gathered result list, the output sources hold
no two entries with the same url, every retained entry has a non-empty
url, and the entries are exactly the first occurrences of each non-empty
url among the collected items in iteration order; items whose url is
empty are dropped from the output, not retained. -/
theorem c1_dedup_sources_amended (rs : List AdapterResult) :
    (((runService rs).sources.map (fun x => x.url)).Nodup) ∧
    ((runService rs).sources.all (fun x => x.url != "")) = true ∧
    (runService rs).sources = (keepFirstByUrl (collectedResults rs)).map mkSourceRef := by
  refine ⟨?_, ?_, runService_sources rs⟩
  · rw [runService_sources rs, List.map_map]
    exact keepFirstByUrl_urls_nodup _
  · rw [runService_sources rs, List.all_eq_true]
    intro x hx
    rcases List.mem_map.mp hx with ⟨i, hi, rfl⟩
    have := keepFirstByUrl_url_ne_empty _ _ hi
    simpa [mkSourceRef] using this

/-- C1 fails as stated on the code: a collected item whose url is empty
is dropped by run, not retained — one successful adapter returning a
single empty-url item yields an empty source list. -/
theorem c1_counterexample :
    (runService [AdapterResult.success
      [{ title := "Untitled note", content := "c", url := "" }]]).sources = [] := by
  decide

/-- C4: the bundle is computed solely from the surviving adapters' item
lists — replacing every failure by an empty success leaves the result
unchanged — and when every adapter fails or returns no item the result
is the empty bundle, returned as a value rather than an error. -/
theorem c4_failure_tolerance (rs : List AdapterResult) :
    runService rs = runService (rs.map AdapterResult.surviving) ∧
    ((rs.all fun r => r.items.isEmpty) = true →
      runService rs = { summary := "", sources := [] }) := by
  constructor
  · unfold runService
    rw [collectedResults_map_surviving]
  · intro h
    unfold runService
    rw [collectedResults_eq_nil rs h]
    rfl

/-- Witness for C4: all three adapters fail, the gathered bundle is the
empty one. -/
theorem c4_failure_tolerance_witness :
    runService [AdapterResult.failure "timeout", AdapterResult.failure "http 500",
      AdapterResult.failure "json decode"] = { summary := "", sources := [] } :=
  (c4_failure_tolerance
    [AdapterResult.failure "timeout", AdapterResult.failure "http 500",
      AdapterResult.failure "json decode"]).2 (by decide)

/-- Lookup of a task index among the completed pairs yields that task's
result. -/
lemma lookup_map_pair (r : Fin 3 → AdapterResult) :
    ∀ (o : List (Fin 3)) (i : Fin 3), i ∈ o →
      (o.map (fun j => (j, r j))).lookup i = some (r i) := by
  intro o
  induction o with
  | nil => intro i hi; simp at hi
  | cons j rest ih =>
    intro i hi
    by_cases hij : i = j
    · subst hij
      simp [List.lookup]
    · have hmem : i ∈ rest := by
        rcases List.mem_cons.mp hi with h | h
        · exact absurd h hij
        · exact h
      have hb : (i == j) = false := beq_eq_false_iff_ne.mpr hij
      simp [List.lookup, hb, ih i hmem]

/-- Whatever the completion order of the three adapter tasks, gather
hands the results over in registration order. -/
lemma gatherModel_perm (r : Fin 3 → AdapterResult) (o : List (Fin 3))
    (h : o.Perm (List.finRange 3)) :
    gatherModel r o = [r 0, r 1, r 2] := by
  have hmem : ∀ i : Fin 3, i ∈ o := fun i => h.mem_iff.mpr (List.mem_finRange i)
  have h0 := lookup_map_pair r o 0 (hmem 0)
  have h1 := lookup_map_pair r o 1 (hmem 1)
  have h2 := lookup_map_pair r o 2 (hmem 2)
  have hfin : List.finRange 3 = [0, 1, 2] := by decide
  simp [gatherModel, hfin, h0, h1, h2]

/-- C9: for a fixed triple of per-adapter outcomes the bundle does not
depend on the completion order of the concurrent tasks, and the source
list is the first-occurrence dedup of the items concatenated in
registration order (web search, then encyclopedia, then archive), item
order preserved within each adapter. -/
theorem c9_completion_order_independent (r : Fin 3 → AdapterResult)
    (o₁ o₂ : List (Fin 3))
    (h₁ : o₁.Perm (List.finRange 3)) (h₂ : o₂.Perm (List.finRange 3)) :
    runService (gatherModel r o₁) = runService (gatherModel r o₂) ∧
    (runService (gatherModel r o₁)).sources =
      (keepFirstByUrl ((r 0).items ++ (r 1).items ++ (r 2).items)).map mkSourceRef := by
  rw [gatherModel_perm r o₁ h₁, gatherModel_perm r o₂ h₂]
  refine ⟨rfl, ?_⟩
  rw [runService_sources]
  simp [collectedResults, List.append_assoc]

/-- Witness for C9: one surviving adapter and two failures, two different
completion orders. -/
theorem c9_completion_order_independent_witness :
    runService (gatherModel adapterTriple [2, 0, 1]) =
      runService (gatherModel adapterTriple [0, 1, 2]) ∧
    (runService (gatherModel adapterTriple [2, 0, 1])).sources =
      (keepFirstByUrl ((adapterTriple 0).items ++ (adapterTriple 1).items
        ++ (adapterTriple 2).items)).map mkSourceRef :=
  c9_completion_order_independent adapterTriple [2, 0, 1] [0, 1, 2]
    (by decide) (by decide)

/-- The code's floor-division form of the ceiling: for every integer a,
(a + 9) / 10 is the ceiling of the exact quotient a / 10. -/
lemma pyCeilDiv10_eq_ceil (a : Int) : pyCeilDiv10 a = ⌈(a : ℚ) / 10⌉ := by
  unfold pyCeilDiv10
  symm
  rw [Int.ceil_eq_iff]
  have hlt : 10 * ((a + 9) / 10 - 1) < a := by omega
  have hle : a ≤ 10 * ((a + 9) / 10) := by omega
  constructor
  · rw [lt_div_iff₀ (by norm_num : (0 : ℚ) < 10)]
    calc ((((a + 9) / 10 : Int) : ℚ) - 1) * 10
        = ((10 * ((a + 9) / 10 - 1) : Int) : ℚ) := by push_cast; ring
      _ < a := by exact_mod_cast hlt
  · rw [div_le_iff₀ (by norm_num : (0 : ℚ) < 10)]
    calc (a : ℚ) ≤ ((10 * ((a + 9) / 10) : Int) : ℚ) := by exact_mod_cast hle
      _ = (((a + 9) / 10 : Int) : ℚ) * 10 := by push_cast; ring

/-- C3: with the table-of-contents flag the number of content slides is
the requested total minus the ceiling of (total minus the ceiling of
(total - 1) / 10) over 10; in particular 21 yields 19 and 10 yields 9,
and without the flag the count is the requested total unchanged. -/
theorem c3_slide_count :
    (∀ n : Int, (slidesToGenerate n true : ℚ) =
      (n : ℚ) - ⌈((n : ℚ) - ⌈((n : ℚ) - 1) / 10⌉) / 10⌉) ∧
    slidesToGenerate 21 true = 19 ∧
    slidesToGenerate 10 true = 9 ∧
    slidesToGenerate 10 false = 10 := by
  refine ⟨?_, by decide, by decide, by decide⟩
  intro n
  have h1 : pyCeilDiv10 (n - 1) = ⌈((n : ℚ) - 1) / 10⌉ := by
    rw [pyCeilDiv10_eq_ceil]
    congr 1
    push_cast
    ring
  have h2 : pyCeilDiv10 (n - pyCeilDiv10 (n - 1)) =
      ⌈((n : ℚ) - ⌈((n : ℚ) - 1) / 10⌉) / 10⌉ := by
    rw [pyCeilDiv10_eq_ceil, h1]
    congr 1
    push_cast
    ring
  show ((n - pyCeilDiv10 (n - pyCeilDiv10 (n - 1)) : Int) : ℚ) = _
  rw [h2]
  push_cast
  ring

/-- Unfolding equation of the generation loop on a text chunk. -/
lemma genLoop_cons_text (t : String) (rest : List GenChunk) (acc : String) :
    genLoop (GenChunk.text t :: rest) acc =
      (SSEEvent.chunk t :: (genLoop rest (acc ++ t)).1,
        (genLoop rest (acc ++ t)).2) := rfl

/-- Unfolding equation of the generation loop on an embedded error. -/
lemma genLoop_cons_err (d : String) (rest : List GenChunk) (acc : String) :
    genLoop (GenChunk.httpError d :: rest) acc = ([SSEEvent.error d], none) := rfl

/-- The generation loop that ran to the end emitted only chunk events,
none of them terminal. -/
lemma genLoop_some_nonterminal :
    ∀ (cs : List GenChunk) (acc t : String), (genLoop cs acc).2 = some t →
      ∀ e ∈ (genLoop cs acc).1, e.isTerminal = false := by
  intro cs
  induction cs with
  | nil => intro acc t _ e he; simp [genLoop] at he
  | cons c rest ih =>
    intro acc t h e he
    cases c with
    | text u =>
      rw [genLoop_cons_text] at h he
      rcases List.mem_cons.mp he with rfl | hmem
      · rfl
      · exact ih (acc ++ u) t h e hmem
    | httpError d =>
      rw [genLoop_cons_err] at h
      exact absurd h (by simp)

/-- The generation loop that stopped on an embedded error emitted some
non-terminal events followed by exactly one error event. -/
lemma genLoop_none_shape :
    ∀ (cs : List GenChunk) (acc : String), (genLoop cs acc).2 = none →
      ∃ pre d, (genLoop cs acc).1 = pre ++ [SSEEvent.error d] ∧
        ∀ e ∈ pre, e.isTerminal = false := by
  intro cs
  induction cs with
  | nil => intro acc h; simp [genLoop] at h
  | cons c rest ih =>
    intro acc h
    cases c with
    | text u =>
      rw [genLoop_cons_text] at h ⊢
      rcases ih (acc ++ u) h with ⟨pre, d, h1, h2⟩
      refine ⟨SSEEvent.chunk u :: pre, d, ?_, ?_⟩
      · rw [h1, List.cons_append]
      · intro e he
        rcases List.mem_cons.mp he with rfl | hmem
        · rfl
        · exact h2 e hmem
    | httpError d =>
      rw [genLoop_cons_err]
      exact ⟨[], d, rfl, by intro e he; simp at he⟩

/-- A run of the generation loop over text chunks followed by an
embedded error emits the chunk events and then the error event. -/
lemma genLoop_error_chunks :
    ∀ (ts : List String) (d : String) (rest : List GenChunk) (acc : String),
      genLoop (ts.map GenChunk.text ++ GenChunk.httpError d :: rest) acc =
        (ts.map SSEEvent.chunk ++ [SSEEvent.error d], none) := by
  intro ts
  induction ts with
  | nil => intro d rest acc; rfl
  | cons t ts ih =>
    intro d rest acc
    rw [List.map_cons, List.cons_append, genLoop_cons_text, ih]
    rfl

/-- Events of a failing attachment load are the single loading status. -/
lemma loadPhase_error_events (s : Scenario) (lm : List SSEEvent × String)
    (h : loadPhase s = Except.error lm) :
    lm.1 = [SSEEvent.status "Loading uploaded documents..."] := by
  unfold loadPhase at h
  split at h
  · split at h
    · rw [Except.error.injEq] at h
      rw [← h]
    · exact Except.noConfusion h
  · exact Except.noConfusion h

/-- Events of a successful attachment load are empty or the single
loading status. -/
lemma loadPhase_ok_events (s : Scenario) (la : List SSEEvent × String)
    (h : loadPhase s = Except.ok la) :
    la.1 = [] ∨ la.1 = [SSEEvent.status "Loading uploaded documents..."] := by
  unfold loadPhase at h
  split at h
  · split at h
    · exact Except.noConfusion h
    · rw [Except.ok.injEq] at h
      right
      rw [← h]
  · rw [Except.ok.injEq] at h
    left
    rw [← h]

/-- Every event the research stage emits is a status event. -/
lemma researchPhase_events (s : Scenario) :
    ∀ e ∈ (researchPhase s).1, e.isTerminal = false := by
  intro e he
  unfold researchPhase at he
  split at he
  · split at he
    · split at he
      · simp only [List.mem_cons, List.not_mem_nil, or_false] at he
        rcases he with rfl | rfl <;> rfl
      · simp only [List.mem_cons, List.not_mem_nil, or_false] at he
        rcases he with rfl | rfl <;> rfl
    · simp only [List.mem_cons, List.not_mem_nil, or_false] at he
      rcases he with rfl | rfl <;> rfl
  · simp at he

/-- Appending preserves freedom from terminal events. -/
lemma all_nonterminal_append (l₁ l₂ : List SSEEvent)
    (h₁ : ∀ x ∈ l₁, x.isTerminal = false) (h₂ : ∀ x ∈ l₂, x.isTerminal = false) :
    ∀ x ∈ l₁ ++ l₂, x.isTerminal = false := by
  intro x hx
  rcases List.mem_append.mp hx with h | h
  exacts [h₁ x h, h₂ x h]

/-- Boolean and propositional forms of freedom from terminal events. -/
lemma all_not_terminal_iff (l : List SSEEvent) :
    ((l.all fun e => !e.isTerminal) = true) ↔ ∀ x ∈ l, x.isTerminal = false := by
  rw [List.all_eq_true]
  constructor <;> intro h x hx
  · simpa using h x hx
  · simp [h x hx]

/-- A list of non-terminal events followed by one terminal event closes
properly. -/
lemma properClosed_concat (pre : List SSEEvent) (e : SSEEvent)
    (he : e.isTerminal = true) (hpre : ∀ x ∈ pre, x.isTerminal = false) :
    properClosed (pre ++ [e]) = true := by
  unfold properClosed
  rw [List.getLast?_concat, List.dropLast_concat]
  simp only [he, Bool.true_and, List.all_eq_true]
  intro x hx
  simp [hpre x hx]

/-- The last event of a list belongs to it. -/
lemma mem_of_getLast?_eq {l : List SSEEvent} {x : SSEEvent}
    (h : l.getLast? = some x) : x ∈ l := by
  rcases List.mem_getLast?_eq_getLast (show x ∈ l.getLast? from h) with ⟨hne, rfl⟩
  exact List.getLast_mem hne

/-- Unfolding of the stream body when attachment loading raises. -/
lemma runStream_load_error (s : Scenario) (lm : List SSEEvent × String)
    (h : loadPhase s = Except.error lm) :
    runStream s = ([SSEEvent.status "Generating presentation outlines..."] ++ lm.1,
      StreamOutcome.raised lm.2, s.pres) := by
  unfold runStream
  rw [h]

/-- Unfolding of the stream body when attachment loading succeeds. -/
lemma runStream_ok (s : Scenario) (la : List SSEEvent × String)
    (h : loadPhase s = Except.ok la) :
    runStream s =
      match mergePhase la.2 (researchPhase s).2 with
      | .error m =>
        ([SSEEvent.status "Generating presentation outlines..."] ++ la.1
          ++ (researchPhase s).1, StreamOutcome.raised m, s.pres)
      | .ok fc =>
        afterGenerate s ([SSEEvent.status "Generating presentation outlines..."] ++ la.1
          ++ (researchPhase s).1) (genLoop (s.generate fc) "") := by
  unfold runStream
  rw [h]

/-- Exhaustive case analysis of the parse-truncate-persist phase. -/
lemma afterGenerate_cases (s : Scenario) (evs : List SSEEvent)
    (gr : List SSEEvent × Option String) :
    (gr.2 = none ∧ afterGenerate s evs gr = (evs ++ gr.1, StreamOutcome.closed, s.pres)) ∨
    (∃ t e, gr.2 = some t ∧ s.parseJson t = Except.error e ∧
      afterGenerate s evs gr =
        (evs ++ gr.1 ++ [SSEEvent.error (parseErrorDetail e)],
          StreamOutcome.closed, s.pres)) ∨
    (∃ t raw m, gr.2 = some t ∧ s.parseJson t = Except.ok raw ∧
      s.validate raw = Except.error m ∧
      afterGenerate s evs gr = (evs ++ gr.1, StreamOutcome.raised m, s.pres)) ∨
    (∃ t raw doc m, gr.2 = some t ∧ s.parseJson t = Except.ok raw ∧
      s.validate raw = Except.ok doc ∧ s.commitResult = Except.error m ∧
      afterGenerate s evs gr =
        (evs ++ gr.1, StreamOutcome.raised m, mutatedRecord s doc)) ∨
    (∃ t raw doc, gr.2 = some t ∧ s.parseJson t = Except.ok raw ∧
      s.validate raw = Except.ok doc ∧ s.commitResult = Except.ok () ∧
      afterGenerate s evs gr =
        (evs ++ gr.1 ++ [SSEEvent.complete "presentation" (mutatedRecord s doc)],
          StreamOutcome.closed, mutatedRecord s doc)) := by
  rcases gr with ⟨gevs, res⟩
  cases res with
  | none => exact Or.inl ⟨rfl, rfl⟩
  | some t =>
    cases hp : s.parseJson t with
    | error e =>
      refine Or.inr (Or.inl ⟨t, e, rfl, hp, ?_⟩)
      simp only [afterGenerate, hp]
    | ok raw =>
      cases hv : s.validate raw with
      | error m =>
        refine Or.inr (Or.inr (Or.inl ⟨t, raw, m, rfl, hp, hv, ?_⟩))
        simp only [afterGenerate, hp, hv]
      | ok doc =>
        cases hc : s.commitResult with
        | error m =>
          refine Or.inr (Or.inr (Or.inr (Or.inl ⟨t, raw, doc, m, rfl, hp, hv, rfl, ?_⟩)))
          simp only [afterGenerate, hp, hv, hc]
        | ok u =>
          cases u
          refine Or.inr (Or.inr (Or.inr (Or.inr ⟨t, raw, doc, rfl, hp, hv, rfl, ?_⟩)))
          simp only [afterGenerate, hp, hv, hc]

/-- The computed content-slide count is never negative for a nonnegative
request. -/
lemma slidesToGenerate_nonneg (n : Int) (toc : Bool) (h : 0 ≤ n) :
    0 ≤ slidesToGenerate n toc := by
  cases toc
  · simpa [slidesToGenerate] using h
  · have he : slidesToGenerate n true = n - (n - (n - 1 + 9) / 10 + 9) / 10 := rfl
    rw [he]
    omega

/-- Every event emitted before the generation loop starts is a status
event, hence non-terminal. -/
lemma runStream_prefix_nonterminal (s : Scenario) (la : List SSEEvent × String)
    (h : loadPhase s = Except.ok la) :
    ∀ x ∈ [SSEEvent.status "Generating presentation outlines..."] ++ la.1
        ++ (researchPhase s).1, x.isTerminal = false := by
  have h0 : ∀ x ∈ [SSEEvent.status "Generating presentation outlines..."],
      SSEEvent.isTerminal x = false := by
    intro x hx
    simp only [List.mem_singleton] at hx
    subst hx
    rfl
  have hla : ∀ x ∈ la.1, SSEEvent.isTerminal x = false := by
    rcases loadPhase_ok_events s la h with h1 | h1 <;> rw [h1] <;> intro x hx
    · simp at hx
    · simp only [List.mem_singleton] at hx
      subst hx
      rfl
  exact all_nonterminal_append _ _ (all_nonterminal_append _ _ h0 hla)
    (researchPhase_events s)

/-- Claim C2 (amended): on every path where the generator body raises no
uncaught exception, the stream emits exactly one terminal event and it
is the last event; on every path where an exception escapes (attachment
load failure, the merge type error after a successful research run,
outline validation failure, persistence failure) the stream ends
silently, with no terminal event at all. -/
theorem c2_stream_termination_amended (s : Scenario) :
    ((runStream s).2.1 = StreamOutcome.closed →
      properClosed (runStream s).1 = true) ∧
    (∀ m, (runStream s).2.1 = StreamOutcome.raised m →
      ((runStream s).1.all fun e => !e.isTerminal) = true) := by
  have h0 : ∀ x ∈ [SSEEvent.status "Generating presentation outlines..."],
      SSEEvent.isTerminal x = false := by
    intro x hx
    simp only [List.mem_singleton] at hx
    subst hx
    rfl
  cases hl : loadPhase s with
  | error lm =>
    rw [runStream_load_error s lm hl]
    constructor
    · intro h
      exact absurd h (by simp)
    · intro m _
      rw [all_not_terminal_iff]
      refine all_nonterminal_append _ _ h0 ?_
      rw [loadPhase_error_events s lm hl]
      intro x hx
      simp only [List.mem_singleton] at hx
      subst hx
      rfl
  | ok la =>
    have hpre := runStream_prefix_nonterminal s la hl
    rw [runStream_ok s la hl]
    cases hm : mergePhase la.2 (researchPhase s).2 with
    | error m =>
      constructor
      · intro h
        exact absurd h (by simp)
      · intro m' _
        rw [all_not_terminal_iff]
        exact hpre
    | ok fc =>
      dsimp only
      rcases afterGenerate_cases s
          ([SSEEvent.status "Generating presentation outlines..."] ++ la.1
            ++ (researchPhase s).1) (genLoop (s.generate fc) "") with
        ⟨hres, heq⟩ | ⟨t, e, hres, hp, heq⟩ | ⟨t, raw, m, hres, hp, hv, heq⟩ |
        ⟨t, raw, doc, m, hres, hp, hv, hc, heq⟩ | ⟨t, raw, doc, hres, hp, hv, hc, heq⟩
      · rw [heq]
        constructor
        · intro _
          rcases genLoop_none_shape _ _ hres with ⟨pre, d, h1, h2⟩
          show properClosed _ = true
          rw [h1, ← List.append_assoc]
          exact properClosed_concat _ _ rfl (all_nonterminal_append _ _ hpre h2)
        · intro m hm'
          exact absurd hm' (by simp)
      · rw [heq]
        constructor
        · intro _
          exact properClosed_concat _ _ rfl
            (all_nonterminal_append _ _ hpre
              (genLoop_some_nonterminal (s.generate fc) "" t hres))
        · intro m hm'
          exact absurd hm' (by simp)
      · rw [heq]
        constructor
        · intro h
          exact absurd h (by simp)
        · intro m' _
          rw [all_not_terminal_iff]
          exact all_nonterminal_append _ _ hpre
            (genLoop_some_nonterminal (s.generate fc) "" t hres)
      · rw [heq]
        constructor
        · intro h
          exact absurd h (by simp)
        · intro m' _
          rw [all_not_terminal_iff]
          exact all_nonterminal_append _ _ hpre
            (genLoop_some_nonterminal (s.generate fc) "" t hres)
      · rw [heq]
        constructor
        · intro _
          exact properClosed_concat _ _ rfl
            (all_nonterminal_append _ _ hpre
              (genLoop_some_nonterminal (s.generate fc) "" t hres))
        · intro m hm'
          exact absurd hm' (by simp)

/-- Witness for the amended C2 at a fully successful scenario. -/
theorem c2_stream_termination_amended_witness :
    properClosed (runStream scenarioBase).1 = true :=
  (c2_stream_termination_amended scenarioBase).1 (by decide)

/-- Claim C2 fails as stated on the code: when attachment extraction
raises, the stream ends with no terminal event — the client sees two
status events and then silence. -/
theorem c2_counterexample :
    (runStream scenarioLoadFail).2.1 = StreamOutcome.raised "extraction failed" ∧
    ((runStream scenarioLoadFail).1.all fun e => !e.isTerminal) = true := by
  decide

/-- Claim C5 (amended): when no research value exists the attachment text
passes through the merge unchanged; when a research value exists — the
dict a successful run returns — the merge concatenates it to a string
and raises TypeError, so no final context is formed and the stream
aborts before generation. -/
theorem c5_merge_amended :
    (∀ a : String, mergePhase a (CtxVal.str "") = Except.ok a) ∧
    (∀ (a : String) (b : ResearchBundle),
      mergePhase a (CtxVal.dict b) = Except.error typeErrorMsg) ∧
    (∀ (s : Scenario) (la : List SSEEvent × String) (b : ResearchBundle),
      loadPhase s = Except.ok la → s.pres.webSearch = true →
      s.researchResult = Except.ok b →
      (runStream s).2.1 = StreamOutcome.raised typeErrorMsg) := by
  refine ⟨fun a => rfl, fun a b => rfl, ?_⟩
  intro s la b hl hw hr
  rw [runStream_ok s la hl]
  have hctx : (researchPhase s).2 = CtxVal.dict b := by
    unfold researchPhase
    rw [hw, if_pos rfl, hr]
    rfl
  have hmerge : mergePhase la.2 (researchPhase s).2 = Except.error typeErrorMsg := by
    rw [hctx]
    rfl
  rw [hmerge]

/-- Witness for the amended C5: concrete scenario with research enabled
and a successful non-empty research run ends in the raised TypeError. -/
theorem c5_merge_amended_witness :
    (runStream scenarioResearchOk).2.1 = StreamOutcome.raised typeErrorMsg :=
  c5_merge_amended.2.2 scenarioResearchOk ([], "")
    { summary := "Title: t\nContent: c\nSource: u\n",
      sources := [{ title := "t", url := "u" }] }
    (by rfl) (by rfl) (by rfl)

/-- Claim C5 fails as stated on the code: with research enabled and a
successful run, the merge step never forms a final context — the three
status events are the only output, there is no chunk event, and the
stream dies on the type error. -/
theorem c5_counterexample :
    (runStream scenarioResearchOk).1 =
      [SSEEvent.status "Generating presentation outlines...",
       SSEEvent.status "Running agentic research (web + wikipedia + archive)...",
       SSEEvent.status "Research completed. Enhancing outline generation..."] ∧
    (runStream scenarioResearchOk).2.1 = StreamOutcome.raised typeErrorMsg ∧
    mergePhase "ATTACH" (CtxVal.str "RESEARCH") =
      Except.ok "ATTACH\n\nExternal Research Context:\nRESEARCH" :=
  ⟨by decide, by decide, by rfl⟩

/-- Claim C6: when the generator stream embeds an HTTPException after
some text chunks, the stream emits the error event as its terminal
event, closes at once, and the presentation record is left untouched. -/
theorem c6_generator_error (s : Scenario) (la : List SSEEvent × String) (fc : String)
    (ts : List String) (d : String) (rest : List GenChunk)
    (hl : loadPhase s = Except.ok la)
    (hm : mergePhase la.2 (researchPhase s).2 = Except.ok fc)
    (hg : s.generate fc = ts.map GenChunk.text ++ GenChunk.httpError d :: rest) :
    (runStream s).2.1 = StreamOutcome.closed ∧
    (runStream s).1.getLast? = some (SSEEvent.error d) ∧
    (runStream s).2.2 = s.pres := by
  rw [runStream_ok s la hl, hm]
  dsimp only
  rw [hg, genLoop_error_chunks]
  refine ⟨rfl, ?_, rfl⟩
  show (([SSEEvent.status "Generating presentation outlines..."] ++ la.1
      ++ (researchPhase s).1) ++ (ts.map SSEEvent.chunk ++ [SSEEvent.error d])).getLast?
    = some (SSEEvent.error d)
  rw [← List.append_assoc, List.getLast?_concat]

/-- Witness for C6 at the concrete scenario whose generator embeds an
error after one chunk. -/
theorem c6_generator_error_witness :
    (runStream scenarioGenError).2.1 = StreamOutcome.closed ∧
    (runStream scenarioGenError).1.getLast? = some (SSEEvent.error "LLM failure") ∧
    (runStream scenarioGenError).2.2 = scenarioGenError.pres :=
  c6_generator_error scenarioGenError ([], "") "" ["half"] "LLM failure" []
    (by rfl) (by rfl) (by rfl)

/-- Claim C7: whenever the stream writes outlines, they are the parsed
document truncated to the computed target count; the truncation never
exceeds the target and never pads a short document. -/
theorem c7_truncation :
    (∀ s : Scenario,
      (runStream s).2.2.outlines = s.pres.outlines ∨
      ∃ doc, (runStream s).2.2.outlines =
        some (truncateSlides doc (slidesToGenerate s.pres.nSlides s.pres.includeToc))) ∧
    (∀ (doc : OutlineDoc) (n : Int) (toc : Bool), 0 ≤ n →
      ((truncateSlides doc (slidesToGenerate n toc)).slides.length : Int) ≤
        slidesToGenerate n toc ∧
      ((doc.slides.length : Int) ≤ slidesToGenerate n toc →
        truncateSlides doc (slidesToGenerate n toc) = doc)) := by
  constructor
  · intro s
    cases hl : loadPhase s with
    | error lm =>
      rw [runStream_load_error s lm hl]
      exact Or.inl rfl
    | ok la =>
      rw [runStream_ok s la hl]
      cases hm : mergePhase la.2 (researchPhase s).2 with
      | error m => exact Or.inl rfl
      | ok fc =>
        dsimp only
        rcases afterGenerate_cases s
            ([SSEEvent.status "Generating presentation outlines..."] ++ la.1
              ++ (researchPhase s).1) (genLoop (s.generate fc) "") with
          ⟨_, heq⟩ | ⟨t, e, _, _, heq⟩ | ⟨t, raw, m, _, _, _, heq⟩ |
          ⟨t, raw, doc, m, _, _, _, _, heq⟩ | ⟨t, raw, doc, _, _, _, _, heq⟩
        · rw [heq]; exact Or.inl rfl
        · rw [heq]; exact Or.inl rfl
        · rw [heq]; exact Or.inl rfl
        · rw [heq]; exact Or.inr ⟨doc, rfl⟩
        · rw [heq]; exact Or.inr ⟨doc, rfl⟩
  · intro doc n toc hn
    have hk := slidesToGenerate_nonneg n toc hn
    constructor
    · show ((doc.slides.take (slidesToGenerate n toc).toNat).length : Int) ≤ _
      rw [List.length_take]
      omega
    · intro hlen
      have h1 : doc.slides.length ≤ (slidesToGenerate n toc).toNat := by omega
      show OutlineDoc.mk (doc.slides.take (slidesToGenerate n toc).toNat) = doc
      rw [List.take_of_length_le h1]

/-- Witness for C7: a two-slide document against a target of one content
slide (requested total 1 with table of contents). -/
theorem c7_truncation_witness :
    ((truncateSlides { slides := [{ content := "a" }, { content := "b" }] }
      (slidesToGenerate 1 true)).slides.length : Int) ≤ slidesToGenerate 1 true :=
  (c7_truncation.2 { slides := [{ content := "a" }, { content := "b" }] } 1 true
    (by decide)).1

/-- Claim C8 diverges from the code at the empty research result: run
returns the dict with empty summary and empty source list, the dict is
truthy, so the found status is emitted instead of the none-found status,
and the merge step then raises. The none-found status is unreachable. -/
theorem c8_none_found_unreachable :
    (runStream scenarioResearchEmpty).1 =
      [SSEEvent.status "Generating presentation outlines...",
       SSEEvent.status "Running agentic research (web + wikipedia + archive)...",
       SSEEvent.status "Research completed. Enhancing outline generation..."] ∧
    (runStream scenarioResearchEmpty).2.1 = StreamOutcome.raised typeErrorMsg := by
  decide

/-- Claim C10: only the outlines and title fields are ever mutated; on
every path whose last emitted event is an error event the record is
fully unchanged; and a mutated record occurs only past successful
parsing — on the completing path, or on the commit-failure path that
raises after the in-memory mutation. -/
theorem c10_frame (s : Scenario) :
    ({ (runStream s).2.2 with
        outlines := s.pres.outlines
        title := s.pres.title } = s.pres) ∧
    (∀ d, (runStream s).1.getLast? = some (SSEEvent.error d) →
      (runStream s).2.2 = s.pres) ∧
    ((runStream s).2.2 ≠ s.pres →
      ((runStream s).2.1 = StreamOutcome.closed ∧
        (runStream s).1.getLast? =
          some (SSEEvent.complete "presentation" (runStream s).2.2)) ∨
      ∃ m, s.commitResult = Except.error m ∧
        (runStream s).2.1 = StreamOutcome.raised m) := by
  cases hl : loadPhase s with
  | error lm =>
    rw [runStream_load_error s lm hl]
    exact ⟨rfl, fun d _ => rfl, fun hne => absurd rfl hne⟩
  | ok la =>
    have hpre := runStream_prefix_nonterminal s la hl
    rw [runStream_ok s la hl]
    cases hm : mergePhase la.2 (researchPhase s).2 with
    | error m => exact ⟨rfl, fun d _ => rfl, fun hne => absurd rfl hne⟩
    | ok fc =>
      dsimp only
      rcases afterGenerate_cases s
          ([SSEEvent.status "Generating presentation outlines..."] ++ la.1
            ++ (researchPhase s).1) (genLoop (s.generate fc) "") with
        ⟨hres, heq⟩ | ⟨t, e, hres, hp, heq⟩ | ⟨t, raw, m, hres, hp, hv, heq⟩ |
        ⟨t, raw, doc, m, hres, hp, hv, hc, heq⟩ | ⟨t, raw, doc, hres, hp, hv, hc, heq⟩
      · rw [heq]
        exact ⟨rfl, fun d _ => rfl, fun hne => absurd rfl hne⟩
      · rw [heq]
        exact ⟨rfl, fun d _ => rfl, fun hne => absurd rfl hne⟩
      · rw [heq]
        exact ⟨rfl, fun d _ => rfl, fun hne => absurd rfl hne⟩
      · rw [heq]
        refine ⟨rfl, ?_, fun _ => Or.inr ⟨m, hc, rfl⟩⟩
        intro d hd
        have hmem := mem_of_getLast?_eq hd
        have hNT := all_nonterminal_append _ _ hpre
          (genLoop_some_nonterminal (s.generate fc) "" t hres)
        have hfalse := hNT _ hmem
        simp [SSEEvent.isTerminal] at hfalse
      · rw [heq]
        refine ⟨rfl, ?_, fun _ => Or.inl ⟨rfl, ?_⟩⟩
        · intro d hd
          rw [List.getLast?_concat] at hd
          exact absurd hd (by simp)
        · rw [List.getLast?_concat]

/-- Witness for C10 at the generator-error scenario: the last event is
the error event and the record is unchanged. -/
theorem c10_frame_witness :
    (runStream scenarioGenError).2.2 = scenarioGenError.pres :=
  (c10_frame scenarioGenError).2.1 "LLM failure" (by decide)
